import Mathlib

/-!
Verification development for the roblox-playercount-proxy repository.

The repository is a Vercel serverless handler (`api/players.js`, in several
near-duplicate variants) that proxies a live player count from the Roblox
games API, tracks rolling 24-hour / 7-day peaks in a sorted-set store
(Upstash Redis in `src/api/players.js`, Vercel KV in the variant that also
prunes), and, in one variant, rate-limits clients with an in-memory
sliding-window counter plus a one-hour hard block.

Times are epoch milliseconds, modelled as `Int` (JS numbers used as integer
millisecond timestamps).  Stored sorted-set members are the literal strings
`"<timestamp>:<value>"` the code writes and re-parses, modelled as `String`.
-/

/-! ### Time constants (from the handler sources) -/

def TEN_MINUTES : Int := 10 * 60 * 1000

def DAY_MS : Int := 24 * 60 * 60 * 1000

def WEEK_MS : Int := 7 * 24 * 60 * 60 * 1000

/-! ### JS string primitives used by the peak decoder

`entry.split(':')` and `parseInt(s, 10)` are modelled character-exactly:
`splitOnChar` splits a character list at every separator occurrence, and
`jsParseIntList` strips leading whitespace, accepts an optional sign, and
reads the longest leading run of decimal digits, returning `none` for `NaN`
(no digits). -/

def leadingDigitsVal (cs : List Char) : Option Nat :=
  let ds := cs.takeWhile (fun c => c.isDigit)
  if ds.isEmpty then none
  else some (ds.foldl (fun acc c => acc * 10 + (c.toNat - 48)) 0)

def jsParseIntChars : List Char → Option Int
  | '-' :: rest => (leadingDigitsVal rest).map (fun n => -(n : Int))
  | '+' :: rest => (leadingDigitsVal rest).map (fun n => (n : Int))
  | cs => (leadingDigitsVal cs).map (fun n => (n : Int))

def jsParseIntList (cs : List Char) : Option Int :=
  jsParseIntChars (cs.dropWhile (fun c => c.isWhitespace))

def jsParseInt (s : String) : Option Int :=
  jsParseIntList s.data

def splitOnCharAux (sep : Char) : List Char → List Char → List (List Char)
  | [], acc => [acc.reverse]
  | c :: rest, acc =>
      if c = sep then acc.reverse :: splitOnCharAux sep rest []
      else splitOnCharAux sep rest (c :: acc)

def splitOnChar (sep : Char) (cs : List Char) : List (List Char) :=
  splitOnCharAux sep cs []

/-! ### Sample decoding (src/api/players.js lines 145-150 / 176-181)

One mapped element of
`entries.map(e => { const parts = String(e).split(':');
                    return parts.length >= 2 ? parseInt(parts[1], 10) : 0; })`:
`none` models JS `NaN`. -/

def parseEntryCount (entry : String) : Option Int :=
  let parts := splitOnChar ':' entry.data
  if 2 ≤ parts.length then jsParseIntList (parts.getD 1 []) else some 0

/-- The `.filter(count => !isNaN(count) && count > 0)` stage applied to the
mapped counts: the validly decoded, strictly positive sample values. -/
def windowCounts (entries : List String) : List Int :=
  (entries.map parseEntryCount).filterMap (fun c =>
    match c with
    | some v => if 0 < v then some v else none
    | none => none)

/-! ### Windowed peak computation (src/api/players.js lines 138-198) -/

def get24hPeak (last24hEntries : List String) (currentPlayers : Int) : Int :=
  if last24hEntries.isEmpty then currentPlayers
  else
    let counts := windowCounts last24hEntries
    if counts.isEmpty then currentPlayers
    else counts.foldl max currentPlayers

def get7dPeak (last7dEntries : List String) (currentPlayers : Int) : Int :=
  if last7dEntries.isEmpty then currentPlayers
  else
    let counts := windowCounts last7dEntries
    if counts.isEmpty then currentPlayers
    else counts.foldl max currentPlayers

/-! ### Sorted-set range query

`redis.zrange('playerPeaks', lo, hi, { byScore: true })` /
`kv.zrangebyscore('playerPeaks', lo, hi)`: members whose score lies in the
closed interval `[lo, hi]`.  The store is a list of (score, member) pairs
kept in insertion order (scores are the strictly increasing save times). -/

def zrangeByScore (samples : List (Int × String)) (lo hi : Int) : List String :=
  (samples.filter (fun p => lo ≤ p.1 ∧ p.1 ≤ hi)).map Prod.snd

/-! ### Basic foldl-max lemmas -/

lemma foldl_max_init_le (l : List Int) (a : Int) : a ≤ l.foldl max a := by
  induction l generalizing a with
  | nil => exact le_refl a
  | cons x xs ih => exact le_trans (le_max_left a x) (ih (max a x))

lemma foldl_max_mono_init (l : List Int) {a b : Int} (h : a ≤ b) :
    l.foldl max a ≤ l.foldl max b := by
  induction l generalizing a b with
  | nil => exact h
  | cons x xs ih => exact ih (max_le_max h (le_refl x))

lemma foldl_max_sublist {l₁ l₂ : List Int} (h : l₁.Sublist l₂) (a : Int) :
    l₁.foldl max a ≤ l₂.foldl max a := by
  induction h generalizing a with
  | slnil => exact le_refl _
  | cons x h ih =>
      calc _ ≤ _ := ih a
        _ ≤ _ := foldl_max_mono_init _ (le_max_left a x)
  | cons₂ x h ih => exact ih (max a x)

lemma get24hPeak_eq_foldl (entries : List String) (cv : Int) :
    get24hPeak entries cv = (windowCounts entries).foldl max cv := by
  unfold get24hPeak
  by_cases he : entries.isEmpty
  · have : entries = [] := List.isEmpty_iff.mp he
    subst this
    simp [windowCounts]
  · simp only [he, if_false]
    by_cases hc : (windowCounts entries).isEmpty
    · have : windowCounts entries = [] := List.isEmpty_iff.mp hc
      simp [this]
    · simp [hc]

lemma get7dPeak_eq_foldl (entries : List String) (cv : Int) :
    get7dPeak entries cv = (windowCounts entries).foldl max cv := by
  unfold get7dPeak
  by_cases he : entries.isEmpty
  · have : entries = [] := List.isEmpty_iff.mp he
    subst this
    simp [windowCounts]
  · simp only [he, if_false]
    by_cases hc : (windowCounts entries).isEmpty
    · have : windowCounts entries = [] := List.isEmpty_iff.mp hc
      simp [this]
    · simp [hc]

lemma windowCounts_sublist {e₁ e₂ : List String} (h : e₁.Sublist e₂) :
    (windowCounts e₁).Sublist (windowCounts e₂) := by
  unfold windowCounts
  exact (h.map parseEntryCount).filterMap _

/-! ### The durable store

`Store` holds the `playerPeaks` sorted set (as (score, member) pairs) and the
value at key `lastSaveTime`.  The source writes `now.toString()` and reads it
back with `parseInt(savedTime, 10)` (the KV variant stores the number
directly); for integer timestamps this string roundtrip is exact, so the
stored value is modelled as the integer itself, `none` modelling an absent
key (JS `null`, read back as 0 via `savedTime ? parseInt(savedTime, 10) : 0`). -/

structure Store where
  samples : List (Int × String)
  lastSaveTime : Option Int
deriving DecidableEq

/-- The member string `` `${now}:${currentPlayers}` `` written by `zadd`. -/
def encodeSample (now currentPlayers : Int) : String :=
  toString now ++ ":" ++ toString currentPlayers

/-! ### Sampler store transition, normal operation
(src/api/players.js lines 77-104: read `lastSaveTime` with default 0, and if
`timeSinceLastSave >= TEN_MINUTES || lastSaveTime === 0` append
`(now, "${now}:${currentPlayers}")` to `playerPeaks` and set
`lastSaveTime = now`; otherwise leave the store untouched). -/

def samplerStep (store : Store) (now currentPlayers : Int) : Store :=
  let lastSaveTime := store.lastSaveTime.getD 0
  if TEN_MINUTES ≤ now - lastSaveTime ∨ lastSaveTime = 0 then
    { samples := store.samples ++ [(now, encodeSample now currentPlayers)]
      lastSaveTime := some now }
  else store

/-! ### Sampler store transition of the pruning variant
(src/unnamed/part_002 lines 40-53: same save condition; on save, `zadd` the
new sample, set `lastSaveTime`, then
`zremrangebyscore('playerPeaks', 0, sevenDaysAgo)` — remove every member
whose score lies in the closed interval `[0, now - 7 days]`.  No pruning
happens on an invocation that does not save.) -/

def kvStep (store : Store) (now currentPlayers : Int) : Store :=
  let lastSaveTime := store.lastSaveTime.getD 0
  if TEN_MINUTES ≤ now - lastSaveTime ∨ lastSaveTime = 0 then
    let withNew := store.samples ++ [(now, encodeSample now currentPlayers)]
    let sevenDaysAgo := now - WEEK_MS
    { samples := withNew.filter (fun p => ¬ (0 ≤ p.1 ∧ p.1 ≤ sevenDaysAgo))
      lastSaveTime := some now }
  else store

/-! ### Source payload shapes (src/api/players.js lines 29-49)

The handler makes exactly one `fetch`; its outcome is one of: the fetch (or
`response.json()`) rejected, the response had a non-ok HTTP status, the JSON
parsed to a falsy value (`!data`), or it parsed to an object whose `data`
field is missing/falsy, not an array, or an array of entries whose `playing`
field is or is not a number. -/

inductive PlayingVal
  | num (n : Int)
  | nonNum
deriving DecidableEq

structure GameEntry where
  playing : PlayingVal
deriving DecidableEq

inductive DataField
  | missing
  | nonArray
  | arr (entries : List GameEntry)
deriving DecidableEq

inductive SourceResult
  | fetchError
  | badStatus (status : Nat)
  | nullPayload
  | payload (d : DataField)
deriving DecidableEq

/-- `typeof data.data[0].playing === 'number' ? data.data[0].playing : 0`. -/
def playingOf (e : GameEntry) : Int :=
  match e.playing with
  | .num n => n
  | .nonNum => 0

/-! ### Store fault model

Each Redis call site sits in its own `try/catch` (src/api/players.js lines
52-212): the dynamic import / client construction can fail (`importOk`), the
env vars can be missing (`envOk`), and the `get`, the `zadd`+`set` pair, and
each of the two `zrange` calls can fail independently. -/

structure StoreFaults where
  importOk : Bool
  envOk : Bool
  getOk : Bool
  saveOk : Bool
  range24Ok : Bool
  range7Ok : Bool
deriving DecidableEq

def allOk : StoreFaults := ⟨true, true, true, true, true, true⟩

structure HandlerResult where
  status : Nat
  error : Option String
  playing : Int
  peak24h : Int
  peak7d : Int
  /-- Number of requests the handler issued to the count source; the code
  contains a single `fetch`, executed once per request on every path. -/
  sourceRequests : Nat
deriving DecidableEq

/-- The 500 failure payload of the outer catch (src/api/players.js lines
228-233).  Every throw site runs before `currentPlayers`, `peak24h` or
`peak7d` is reassigned from its initial 0, so `currentPlayers || 0` etc.
are all 0 here. -/
def failResponse : HandlerResult :=
  { status := 500
    error := some "Failed to fetch player count"
    playing := 0
    peak24h := 0
    peak7d := 0
    sourceRequests := 1 }

/-! ### The request handler (src/api/players.js lines 24-235)

Shallow embedding of one invocation: the source outcome, the store contents,
the per-call-site fault pattern and the clock are inputs; the JSON response
and the updated store are the outputs.  Every Redis failure is absorbed at
its call site exactly as in the source: a failed `get` leaves
`lastSaveTime = 0`, a failed save leaves the store unchanged, a failed
`zrange` leaves the entry list `[]`, and a failed import (or missing env
vars) short-circuits both peaks to `currentPlayers`. -/

def handlePlayers (src : SourceResult) (store : Store) (f : StoreFaults)
    (now : Int) : HandlerResult × Store :=
  match src with
  | .fetchError => (failResponse, store)
  | .badStatus _ => (failResponse, store)
  | .nullPayload => (failResponse, store)
  | .payload .missing => (failResponse, store)
  | .payload .nonArray => (failResponse, store)
  | .payload (.arr []) => (failResponse, store)
  | .payload (.arr (e :: _)) =>
    let currentPlayers := playingOf e
    if ¬ f.importOk then
      ({ status := 200, error := none, playing := currentPlayers
         peak24h := currentPlayers, peak7d := currentPlayers
         sourceRequests := 1 }, store)
    else if ¬ f.envOk then
      ({ status := 200, error := none, playing := currentPlayers
         peak24h := currentPlayers, peak7d := currentPlayers
         sourceRequests := 1 }, store)
    else
      let lastSaveTime : Int :=
        if f.getOk then store.lastSaveTime.getD 0 else 0
      let store1 : Store :=
        if TEN_MINUTES ≤ now - lastSaveTime ∨ lastSaveTime = 0 then
          if f.saveOk then
            { samples := store.samples ++ [(now, encodeSample now currentPlayers)]
              lastSaveTime := some now }
          else store
        else store
      let last24hEntries : List String :=
        if f.range24Ok then zrangeByScore store1.samples (now - DAY_MS) now
        else []
      let last7dEntries : List String :=
        if f.range7Ok then zrangeByScore store1.samples (now - WEEK_MS) now
        else []
      ({ status := 200, error := none, playing := currentPlayers
         peak24h := get24hPeak last24hEntries currentPlayers
         peak7d := get7dPeak last7dEntries currentPlayers
         sourceRequests := 1 }, store1)

/-- The source outcomes the spec's SourceUnavailable taxonomy covers: a
non-success HTTP status, an absent (falsy) payload, a missing or non-array
`data` field, or an empty `data` array. -/
def sourceBad : SourceResult → Bool
  | .badStatus _ => true
  | .nullPayload => true
  | .payload .missing => true
  | .payload .nonArray => true
  | .payload (.arr []) => true
  | _ => false

/-! ### Rate limiter (src/unnamed/part_000 lines 68-127) -/

def RATE_LIMIT_WINDOW_MS : Int := 10 * 1000

def RATE_LIMIT_MAX_REQUESTS : Nat := 10

def RATE_LIMIT_BLOCK_MS : Int := 60 * 60 * 1000

/-- `Math.ceil(ms / 1000)`, as used on the positive remaining-block
durations `blockedUntil - now` and `RATE_LIMIT_BLOCK_MS`. -/
def ceilSeconds (ms : Int) : Int :=
  ((ms.toNat + 999) / 1000 : Nat)

/-- One per-client entry of the `rateLimitState` map:
`{ count, windowStart, blockedUntil }`, with `none` for a `null`
`blockedUntil`. -/
structure RLEntry where
  count : Nat
  windowStart : Int
  blockedUntil : Option Int
deriving DecidableEq

structure RLResult where
  allowed : Bool
  blocked : Bool
  retryAfterSeconds : Int
deriving DecidableEq

/-- Lines 94-126 of src/unnamed/part_000: the window logic that runs once the
blocked-state check has fallen through (`existing` is the entry still in the
map, or `none` after a delete / for an unseen client). -/
def rlWindowStep (existing : Option RLEntry) (now : Int) :
    RLResult × Option RLEntry :=
  match existing with
  | none => (⟨true, false, 0⟩, some ⟨1, now, none⟩)
  | some e =>
    if RATE_LIMIT_WINDOW_MS < now - e.windowStart then
      (⟨true, false, 0⟩, some ⟨1, now, none⟩)
    else
      let c := e.count + 1
      if RATE_LIMIT_MAX_REQUESTS < c then
        (⟨false, true, ceilSeconds RATE_LIMIT_BLOCK_MS⟩,
         some ⟨c, e.windowStart, some (now + RATE_LIMIT_BLOCK_MS)⟩)
      else
        (⟨true, false, 0⟩, some ⟨c, e.windowStart, e.blockedUntil⟩)

/-- `rateLimitCheck` (lines 77-127) for one client: the entry currently in
the map (or `none`) and the clock go in; the admission result and the entry
left in the map come out.  `current.blockedUntil && ...` is JS truthiness:
a `blockedUntil` of `null` — or of the number 0 — skips both blocked
branches. -/
def rateLimitCheck (state : Option RLEntry) (now : Int) :
    RLResult × Option RLEntry :=
  match state with
  | none => rlWindowStep none now
  | some cur =>
    match cur.blockedUntil with
    | none => rlWindowStep (some cur) now
    | some bu =>
      if bu ≠ 0 ∧ now < bu then
        (⟨false, true, ceilSeconds (bu - now)⟩, some cur)
      else if bu ≠ 0 ∧ bu ≤ now then
        rlWindowStep none now
      else
        rlWindowStep (some cur) now

/-- Run the limiter over a sequence of request times for one client,
collecting each admission result and threading the map entry. -/
def rlRun (state : Option RLEntry) : List Int → List RLResult × Option RLEntry
  | [] => ([], state)
  | t :: ts =>
    let step := rateLimitCheck state t
    let rest := rlRun step.2 ts
    (step.1 :: rest.1, rest.2)

/-! ## Claims -/

/-- C1: each peak function returns exactly the maximum of the validly decoded
sample values of its window together with `currentPlayers`; in particular the
result is always at least the live count, and an empty or entirely malformed
entry list degrades to exactly `currentPlayers`. -/
theorem peak_max_includes_current (entries : List String) (cv : Int) :
    cv ≤ get24hPeak entries cv
    ∧ cv ≤ get7dPeak entries cv
    ∧ get24hPeak entries cv = (windowCounts entries).foldl max cv
    ∧ get7dPeak entries cv = (windowCounts entries).foldl max cv
    ∧ (windowCounts entries = [] →
        get24hPeak entries cv = cv ∧ get7dPeak entries cv = cv) := by
  have h24 := get24hPeak_eq_foldl entries cv
  have h7 := get7dPeak_eq_foldl entries cv
  refine ⟨?_, ?_, h24, h7, ?_⟩
  · rw [h24]; exact foldl_max_init_le _ cv
  · rw [h7]; exact foldl_max_init_le _ cv
  · intro hempty
    rw [h24, h7, hempty]
    exact ⟨rfl, rfl⟩

/-- C1 witness: a window holding only a malformed entry degrades both peaks
to the live count 7. -/
theorem peak_max_includes_current_w :
    get24hPeak ["garbage"] 7 = 7 ∧ get7dPeak ["garbage"] 7 = 7 :=
  (peak_max_includes_current ["garbage"] 7).2.2.2.2 (by decide)

/-- C2: with both window queries running over the same sample set, the
7-day peak is at least the 24-hour peak, because the 24-hour window
`[now - 24h, now]` selects a sublist of what the 7-day window
`[now - 7d, now]` selects. -/
theorem peak7d_ge_peak24h (samples : List (Int × String)) (now cv : Int) :
    get24hPeak (zrangeByScore samples (now - DAY_MS) now) cv
      ≤ get7dPeak (zrangeByScore samples (now - WEEK_MS) now) cv := by
  have hsub : (zrangeByScore samples (now - DAY_MS) now).Sublist
      (zrangeByScore samples (now - WEEK_MS) now) := by
    unfold zrangeByScore
    refine List.Sublist.map Prod.snd ?_
    refine List.monotone_filter_right samples ?_
    intro p hp
    simp only [decide_eq_true_eq] at hp ⊢
    have hd : DAY_MS ≤ WEEK_MS := by norm_num [DAY_MS, WEEK_MS]
    exact ⟨le_trans (by omega) hp.1, hp.2⟩
  rw [get24hPeak_eq_foldl, get7dPeak_eq_foldl]
  exact foldl_max_sublist (windowCounts_sublist hsub) cv

/-- C3: the sampler appends a sample exactly when
`now - lastSampleTime ≥ 10min` or `lastSampleTime = 0`, then advances
`lastSampleTime` to `now`; hence two invocations less than 10 minutes apart
(at positive, non-decreasing clock values, with the store operating
normally) add at most one sample. -/
theorem sampler_append_iff (store : Store) (now cv : Int) :
    ((samplerStep store now cv).samples.length = store.samples.length + 1
      ↔ (TEN_MINUTES ≤ now - store.lastSaveTime.getD 0
          ∨ store.lastSaveTime.getD 0 = 0))
    ∧ ((TEN_MINUTES ≤ now - store.lastSaveTime.getD 0
          ∨ store.lastSaveTime.getD 0 = 0) →
        (samplerStep store now cv).samples
            = store.samples ++ [(now, encodeSample now cv)]
          ∧ (samplerStep store now cv).lastSaveTime = some now)
    ∧ (¬ (TEN_MINUTES ≤ now - store.lastSaveTime.getD 0
          ∨ store.lastSaveTime.getD 0 = 0) →
        samplerStep store now cv = store)
    ∧ (∀ t₁ t₂ cv₁ cv₂ : Int, 0 < t₁ → t₁ ≤ t₂ → t₂ - t₁ < TEN_MINUTES →
        (samplerStep (samplerStep store t₁ cv₁) t₂ cv₂).samples.length
          ≤ store.samples.length + 1) := by
  refine ⟨?_, ?_, ?_, ?_⟩
  · by_cases h : TEN_MINUTES ≤ now - store.lastSaveTime.getD 0
        ∨ store.lastSaveTime.getD 0 = 0
    · simp [samplerStep, h]
    · simp [samplerStep, h]
  · intro h
    simp [samplerStep, h]
  · intro h
    simp [samplerStep, h]
  · intro t₁ t₂ cv₁ cv₂ ht₁ hle hgap
    by_cases h₁ : TEN_MINUTES ≤ t₁ - store.lastSaveTime.getD 0
        ∨ store.lastSaveTime.getD 0 = 0
    · have hstep₁ : samplerStep store t₁ cv₁
          = { samples := store.samples ++ [(t₁, encodeSample t₁ cv₁)]
              lastSaveTime := some t₁ } := by
        simp [samplerStep, h₁]
      have h₂ : ¬ (TEN_MINUTES ≤ t₂ - (t₁ : Int) ∨ (t₁ : Int) = 0) := by
        push_neg
        exact ⟨by omega, by omega⟩
      rw [hstep₁]
      simp [samplerStep, h₂]
    · have hstep₁ : samplerStep store t₁ cv₁ = store := by
        simp [samplerStep, h₁]
      rw [hstep₁]
      by_cases h₂ : TEN_MINUTES ≤ t₂ - store.lastSaveTime.getD 0
          ∨ store.lastSaveTime.getD 0 = 0
      · simp [samplerStep, h₂]
      · simp [samplerStep, h₂]

/-- C3 witness: starting from an empty store, a first invocation at
t = 10^9 saves (and advances `lastSaveTime`), and a second one half a
second later does not add a second sample. -/
theorem sampler_append_iff_w :
    (samplerStep ⟨[], none⟩ 1000000000 1).lastSaveTime = some 1000000000
    ∧ (samplerStep (samplerStep ⟨[], none⟩ 1000000000 1) 1000000500 2).samples.length ≤ 1 :=
  ⟨((sampler_append_iff ⟨[], none⟩ 1000000000 1).2.1 (by decide)).2,
   (sampler_append_iff ⟨[], none⟩ 0 0).2.2.2 1000000000 1000000500 1 2
     (by decide) (by decide) (by decide)⟩

/-- C4 counterexample: the pruning variant (src/unnamed/part_002) falsifies
the claim twice.  With `now = 1209600000` (so `now - 7d = 604800000`): (a) on
a saving invocation, the sample scored exactly `now - 7d` — which has
timestamp `≥ now - 7d` and so, per the claim, must survive — is deleted,
because `zremrangebyscore('playerPeaks', 0, sevenDaysAgo)` removes the
closed interval `[0, now - 7d]`; (b) on a non-saving invocation
(`lastSaveTime = now - 1`), no pruning happens at all, so a sample with
timestamp `5 < now - 7d` — which, per the claim, every invocation removes —
is still present. -/
theorem kv_prune_cx :
    (((604800000 : Int), "604800000:5")
        ∈ (⟨[((604800000 : Int), "604800000:5")], some 1⟩ : Store).samples)
    ∧ (1209600000 : Int) - WEEK_MS ≤ 604800000
    ∧ (((604800000 : Int), "604800000:5")
        ∉ (kvStep ⟨[((604800000 : Int), "604800000:5")], some 1⟩ 1209600000 3).samples)
    ∧ ((5 : Int) < 1209600000 - WEEK_MS)
    ∧ (((5 : Int), "5:7")
        ∈ (kvStep ⟨[((5 : Int), "5:7")], some 1209599999⟩ 1209600000 3).samples) := by
  decide

/-- C4 amended: pruning runs only on invocations that save a new sample, and
then removes exactly the stored samples (the just-saved one included in the
candidates) whose timestamp lies in the closed interval `[0, now - 7 days]`;
every sample with timestamp strictly above `now - 7 days` survives, and the
7-day window query issued immediately afterwards returns every qualifying
retained sample. -/
theorem kv_prune_amended (store : Store) (now cv : Int)
    (h : TEN_MINUTES ≤ now - store.lastSaveTime.getD 0
        ∨ store.lastSaveTime.getD 0 = 0) :
    (∀ p : Int × String,
        p ∈ (kvStep store now cv).samples
          ↔ ((p ∈ store.samples ∨ p = (now, encodeSample now cv))
              ∧ ¬ (0 ≤ p.1 ∧ p.1 ≤ now - WEEK_MS)))
    ∧ (∀ p ∈ store.samples, now - WEEK_MS < p.1 →
        p ∈ (kvStep store now cv).samples)
    ∧ (∀ p ∈ (kvStep store now cv).samples,
        now - WEEK_MS ≤ p.1 → p.1 ≤ now →
          p.2 ∈ zrangeByScore (kvStep store now cv).samples (now - WEEK_MS) now) := by
  have hmem : ∀ p : Int × String,
      p ∈ (kvStep store now cv).samples
        ↔ ((p ∈ store.samples ∨ p = (now, encodeSample now cv))
            ∧ ¬ (0 ≤ p.1 ∧ p.1 ≤ now - WEEK_MS)) := by
    intro p
    simp [kvStep, h, List.mem_filter, or_comm]
    rw [← or_and_right]
    refine and_congr_right (fun _ => ?_)
    constructor
    · intro hc h0
      rcases hc with h1 | h2
      · exact h1
      · omega
    · intro hd
      by_cases h0 : 0 ≤ p.1
      · exact Or.inl (hd h0)
      · exact Or.inr (by omega)
  refine ⟨hmem, ?_, ?_⟩
  · intro p hp hts
    exact (hmem p).mpr ⟨Or.inl hp, by omega⟩
  · intro p hp hlo hhi
    unfold zrangeByScore
    exact List.mem_map_of_mem Prod.snd (List.mem_filter.mpr ⟨hp, by
      simp only [decide_eq_true_eq]
      exact ⟨hlo, hhi⟩⟩)

/-- C4 amended witness: on a saving invocation at `now = 1209600000`, the
sample at timestamp 0 is pruned and the freshly saved sample is present. -/
theorem kv_prune_amended_w :
    (((0 : Int), "0:5") ∉ (kvStep ⟨[((0 : Int), "0:5")], some 1⟩ 1209600000 3).samples)
    ∧ (((1209600000 : Int), encodeSample 1209600000 3)
        ∈ (kvStep ⟨[((0 : Int), "0:5")], some 1⟩ 1209600000 3).samples) := by
  have H := kv_prune_amended ⟨[((0 : Int), "0:5")], some 1⟩ 1209600000 3 (by decide)
  constructor
  · intro hmem
    have hc := ((H.1 ((0 : Int), "0:5")).mp hmem).2
    exact hc (by decide)
  · exact (H.1 ((1209600000 : Int), encodeSample 1209600000 3)).mpr
      ⟨Or.inr rfl, by decide⟩

lemma rlRun_append (st : Option RLEntry) (l₁ l₂ : List Int) :
    rlRun st (l₁ ++ l₂)
      = ((rlRun st l₁).1 ++ (rlRun (rlRun st l₁).2 l₂).1,
         (rlRun (rlRun st l₁).2 l₂).2) := by
  induction l₁ generalizing st with
  | nil => simp [rlRun]
  | cons t ts ih => simp [rlRun, ih]

lemma rateLimitCheck_open (c : Nat) (t0 t : Int)
    (hwin : t - t0 ≤ RATE_LIMIT_WINDOW_MS) (hc : c + 1 ≤ RATE_LIMIT_MAX_REQUESTS) :
    rateLimitCheck (some ⟨c, t0, none⟩) t
      = (⟨true, false, 0⟩, some ⟨c + 1, t0, none⟩) := by
  have h₁ : ¬ RATE_LIMIT_WINDOW_MS < t - t0 := not_lt.mpr hwin
  have h₂ : ¬ RATE_LIMIT_MAX_REQUESTS < c + 1 := not_lt.mpr hc
  simp [rateLimitCheck, rlWindowStep, h₁, h₂]

lemma rlRun_open (mids : List Int) :
    ∀ (c : Nat) (t0 : Int), c + mids.length ≤ RATE_LIMIT_MAX_REQUESTS →
      (∀ t ∈ mids, t - t0 ≤ RATE_LIMIT_WINDOW_MS) →
      rlRun (some ⟨c, t0, none⟩) mids
        = (List.replicate mids.length ⟨true, false, 0⟩,
           some ⟨c + mids.length, t0, none⟩) := by
  induction mids with
  | nil => intro c t0 _ _; simp [rlRun]
  | cons t ts ih =>
    intro c t0 hc hm
    rw [List.length_cons] at hc
    have hstep := rateLimitCheck_open c t0 t (hm t (List.mem_cons_self t ts))
      (by simp only [RATE_LIMIT_MAX_REQUESTS] at hc ⊢; omega)
    have hrest := ih (c + 1) t0 (by omega)
      (fun u hu => hm u (List.mem_cons_of_mem t hu))
    have harith : c + 1 + ts.length = c + (ts.length + 1) := by omega
    simp only [rlRun, hstep, hrest, List.length_cons, List.replicate_succ, harith]

/-- C5: starting from an unseen client, eleven requests whose times all lie
within ten seconds of the first are admitted for exactly the first ten; the
eleventh is denied with retry-after `ceil(3600000/1000) = 3600 > 0` seconds
and leaves the client blocked until `now + 1 hour` (`now` the time of the
eleventh request). -/
theorem rate_limit_burst (t0 tlast : Int) (mids : List Int)
    (hlen : mids.length = 9)
    (hmids : ∀ t ∈ mids, t - t0 ≤ RATE_LIMIT_WINDOW_MS)
    (hlast : tlast - t0 ≤ RATE_LIMIT_WINDOW_MS) :
    rlRun none (t0 :: (mids ++ [tlast]))
      = (List.replicate 10 ⟨true, false, 0⟩
          ++ [⟨false, true, ceilSeconds RATE_LIMIT_BLOCK_MS⟩],
         some ⟨11, t0, some (tlast + RATE_LIMIT_BLOCK_MS)⟩)
    ∧ ceilSeconds RATE_LIMIT_BLOCK_MS = 3600
    ∧ 0 < ceilSeconds RATE_LIMIT_BLOCK_MS := by
  refine ⟨?_, by decide, by decide⟩
  have hfirst : rateLimitCheck none t0 = (⟨true, false, 0⟩, some ⟨1, t0, none⟩) := rfl
  have hopen := rlRun_open mids 1 t0 (by rw [hlen]; decide) hmids
  have hlastwin : ¬ RATE_LIMIT_WINDOW_MS < tlast - t0 := not_lt.mpr hlast
  have hover : RATE_LIMIT_MAX_REQUESTS < 10 + 1 := by decide
  have hlaststep : rateLimitCheck (some ⟨10, t0, none⟩) tlast
      = (⟨false, true, ceilSeconds RATE_LIMIT_BLOCK_MS⟩,
         some ⟨11, t0, some (tlast + RATE_LIMIT_BLOCK_MS)⟩) := by
    simp [rateLimitCheck, rlWindowStep, hlastwin, hover]
  simp only [rlRun, hfirst, rlRun_append, hopen, hlen]
  simp only [rlRun, hlaststep]
  refine Prod.ext ?_ rfl
  simp [List.replicate_succ]

/-- C5 witness: eleven simultaneous requests at time 0. -/
theorem rate_limit_burst_w :
    rlRun none ((0 : Int) :: (List.replicate 9 (0 : Int) ++ [(0 : Int)]))
      = (List.replicate 10 ⟨true, false, 0⟩
          ++ [⟨false, true, ceilSeconds RATE_LIMIT_BLOCK_MS⟩],
         some ⟨11, 0, some (0 + RATE_LIMIT_BLOCK_MS)⟩)
    ∧ ceilSeconds RATE_LIMIT_BLOCK_MS = 3600
    ∧ 0 < ceilSeconds RATE_LIMIT_BLOCK_MS :=
  rate_limit_burst 0 0 (List.replicate 9 0) (by decide)
    (by intro t ht; simp at ht; subst ht; decide) (by decide)

/-- C6: a client whose entry is blocked until `bu` (with `bu ≠ 0`: every
block the code creates has `bu = now + 3600000`, and JS truthiness would
ignore a zero `blockedUntil`) is denied with
`retryAfterSeconds = ceil((bu - now)/1000) > 0` and an unchanged entry
whenever `now < bu`; at any `now ≥ bu` the entry is deleted and the request
is admitted as a fresh first request whose new window has count 1. -/
theorem rate_limit_blocked (c : Nat) (ws bu now : Int) (hbu : bu ≠ 0) :
    (now < bu →
      rateLimitCheck (some ⟨c, ws, some bu⟩) now
          = (⟨false, true, ceilSeconds (bu - now)⟩, some ⟨c, ws, some bu⟩)
        ∧ 0 < ceilSeconds (bu - now))
    ∧ (bu ≤ now →
      rateLimitCheck (some ⟨c, ws, some bu⟩) now
        = (⟨true, false, 0⟩, some ⟨1, now, none⟩)) := by
  constructor
  · intro hlt
    constructor
    · simp [rateLimitCheck, hbu, hlt]
    · have h1 : 1 ≤ (bu - now).toNat := by omega
      have : 1 ≤ ((bu - now).toNat + 999) / 1000 :=
        (Nat.one_le_div_iff (by norm_num)).mpr (by omega)
      unfold ceilSeconds
      exact_mod_cast this
  · intro hge
    have hnlt : ¬ now < bu := not_lt.mpr hge
    simp [rateLimitCheck, rlWindowStep, hbu, hnlt, hge]

/-- C6 witness: an entry blocked until 5000 denies a request at time 1000
with retry-after `ceil(4000/1000) = 4 > 0` seconds and stays unchanged. -/
theorem rate_limit_blocked_w :
    rateLimitCheck (some ⟨11, 0, some 5000⟩) 1000
        = (⟨false, true, ceilSeconds (5000 - 1000)⟩, some ⟨11, 0, some 5000⟩)
      ∧ 0 < ceilSeconds (5000 - 1000) :=
  (rate_limit_blocked 11 0 5000 1000 (by decide)).1 (by decide)

/-- C7: for every unusable source outcome — non-success HTTP status, absent
payload, missing or non-array `data`, or an empty `data` array — the handler
responds with status 500 and `playing = 0`, and the single source request is
never retried (`sourceRequests = 1`). -/
theorem bad_source_500 (src : SourceResult) (store : Store) (f : StoreFaults)
    (now : Int) (h : sourceBad src = true) :
    (handlePlayers src store f now).1.status = 500
    ∧ (handlePlayers src store f now).1.playing = 0
    ∧ (handlePlayers src store f now).1.sourceRequests = 1 := by
  cases src with
  | fetchError => simp [sourceBad] at h
  | badStatus s => exact ⟨rfl, rfl, rfl⟩
  | nullPayload => exact ⟨rfl, rfl, rfl⟩
  | payload d =>
    cases d with
    | missing => exact ⟨rfl, rfl, rfl⟩
    | nonArray => exact ⟨rfl, rfl, rfl⟩
    | arr es =>
      cases es with
      | nil => exact ⟨rfl, rfl, rfl⟩
      | cons e rest => simp [sourceBad] at h

/-- C7 witness: an empty `data` array yields a 500 with `playing = 0` from
one source request. -/
theorem bad_source_500_w :
    (handlePlayers (.payload (.arr [])) ⟨[], none⟩ allOk 0).1.status = 500
    ∧ (handlePlayers (.payload (.arr [])) ⟨[], none⟩ allOk 0).1.playing = 0
    ∧ (handlePlayers (.payload (.arr [])) ⟨[], none⟩ allOk 0).1.sourceRequests = 1 :=
  bad_source_500 (.payload (.arr [])) ⟨[], none⟩ allOk 0 (by decide)

/-- C8: when the `lastSaveTime` read fails and every other store operation
fails too (the import and env-var checks being arbitrary), the request still
succeeds with status 200 and both peaks degrade to exactly the live count. -/
theorem store_failure_degrades (e : GameEntry) (rest : List GameEntry)
    (store : Store) (now : Int) (imp env : Bool) :
    (handlePlayers (.payload (.arr (e :: rest))) store
        ⟨imp, env, false, false, false, false⟩ now).1
      = { status := 200, error := none, playing := playingOf e
          peak24h := playingOf e, peak7d := playingOf e
          sourceRequests := 1 } := by
  cases imp with
  | false => rfl
  | true =>
    cases env with
    | false => rfl
    | true =>
      simp [handlePlayers, get24hPeak, get7dPeak]

/-- C9: for every valid source payload — a `data` array whose first entry
has numeric `playing = n` — the response has status 200 and reports exactly
`playing = n`, whatever the store contents and fault pattern. -/
theorem valid_source_playing (n : Int) (rest : List GameEntry) (store : Store)
    (f : StoreFaults) (now : Int) :
    (handlePlayers (.payload (.arr (⟨.num n⟩ :: rest))) store f now).1.playing = n
    ∧ (handlePlayers (.payload (.arr (⟨.num n⟩ :: rest))) store f now).1.status = 200 := by
  unfold handlePlayers
  split_ifs <;> exact ⟨rfl, rfl⟩

/-- C10: every 500 response carries exactly `playing = 0`, `peak24h = 0` and
`peak7d = 0`: the store phase absorbs its own failures, so the outer catch
only ever fires before a nonzero count or peak is assigned. -/
theorem fail_payload_zero (src : SourceResult) (store : Store) (f : StoreFaults)
    (now : Int) (h : (handlePlayers src store f now).1.status = 500) :
    (handlePlayers src store f now).1.playing = 0
    ∧ (handlePlayers src store f now).1.peak24h = 0
    ∧ (handlePlayers src store f now).1.peak7d = 0 := by
  cases src with
  | fetchError => exact ⟨rfl, rfl, rfl⟩
  | badStatus s => exact ⟨rfl, rfl, rfl⟩
  | nullPayload => exact ⟨rfl, rfl, rfl⟩
  | payload d =>
    cases d with
    | missing => exact ⟨rfl, rfl, rfl⟩
    | nonArray => exact ⟨rfl, rfl, rfl⟩
    | arr es =>
      cases es with
      | nil => exact ⟨rfl, rfl, rfl⟩
      | cons e rest =>
        exfalso
        unfold handlePlayers at h
        split_ifs at h <;> simp at h

/-- C10 witness: a 503 from the source produces the all-zero failure
payload. -/
theorem fail_payload_zero_w :
    (handlePlayers (.badStatus 503) ⟨[], none⟩ allOk 0).1.playing = 0
    ∧ (handlePlayers (.badStatus 503) ⟨[], none⟩ allOk 0).1.peak24h = 0
    ∧ (handlePlayers (.badStatus 503) ⟨[], none⟩ allOk 0).1.peak7d = 0 :=
  fail_payload_zero (.badStatus 503) ⟨[], none⟩ allOk 0 rfl
